import Mathlib

/-!
Formal model of the streamMusic audio engine.

The definitions below are a shallow embedding of `src/audio/manager.py`
(class `AudioManager`) and `src/models/playlist.py` (class `Song`).
Volumes and times are modelled as rationals.  The audio device
(`pygame.mixer.music`) is modelled by a current volume, a busy flag and a
trace of issued commands.  Each `threading.Timer` the Python code creates
is modelled by a `PendingTimer` entry carrying a fresh numeric handle, its
delay, and the callback it will run; a field of the manager holding a
timer in the Python code holds the corresponding handle here, so that
re-assigning a field without cancelling (as the Python code does in
`play_song` and `_update_position`) leaves the old pending timer alive,
exactly as `threading.Timer` does.  Firing a timer is the `Fires`
relation: any pending entry may be removed from the queue and its
callback executed.
-/

/-- A command issued to the audio device (`pygame.mixer.music`). -/
inductive DevEvent where
  | setVol (v : ℚ)
  | stop
  | play (pos : ℚ)
  | pause
  | unpause
deriving DecidableEq

/-- The callback carried by a `threading.Timer` created by the manager. -/
inductive Job where
  | fadeStart
  | songEnd
  | poll
  | haltComplete
  | natStep (v : ℚ)
  | haltStep (v : ℚ)
deriving DecidableEq

/-- One outstanding `threading.Timer`: its handle, delay and callback. -/
structure PendingTimer where
  id : ℕ
  delay : ℚ
  job : Job
deriving DecidableEq

/-- The state of `AudioManager` (src/audio/manager.py) together with the
modelled audio device and the observable callback traces. -/
structure AudioManager where
  is_playing : Bool
  is_preview_playing : Bool
  current_song_volume : ℚ
  preview_start_time : ℚ
  preview_start_timestamp : ℚ
  preview_pause_position : ℚ
  preview_end_time : ℚ
  is_halting : Bool
  fade_timer : Option ℕ
  end_timer : Option ℕ
  position_update_timer : Option ℕ
  halt_fade_timer : Option ℕ
  active_fade_timers : List ℕ
  next_id : ℕ
  pending : List PendingTimer
  deviceVolume : ℚ
  deviceBusy : Bool
  events : List DevEvent
  pos_cb : List ℚ
  song_finished_count : ℕ
  halt_completed_count : ℕ
deriving DecidableEq

/-- Source: `self.fade_duration = 0.5` (src/audio/manager.py line 16). -/
def fade_duration : ℚ := 1 / 2

/-- Source: `self.halt_fade_duration = 1.0` (src/audio/manager.py line 17). -/
def halt_fade_duration : ℚ := 1

/-- Device command `pygame.mixer.music.set_volume(v)`. -/
def setVolume (s : AudioManager) (v : ℚ) : AudioManager :=
  { s with deviceVolume := v, events := s.events ++ [DevEvent.setVol v] }

/-- Device command `pygame.mixer.music.stop()`. -/
def devStop (s : AudioManager) : AudioManager :=
  { s with deviceBusy := false, events := s.events ++ [DevEvent.stop] }

/-- Device command `pygame.mixer.music.play(start=pos)`. -/
def devPlay (s : AudioManager) (pos : ℚ) : AudioManager :=
  { s with deviceBusy := true, events := s.events ++ [DevEvent.play pos] }

/-- Device command `pygame.mixer.music.pause()`. -/
def devPause (s : AudioManager) : AudioManager :=
  { s with deviceBusy := false, events := s.events ++ [DevEvent.pause] }

/-- Device command `pygame.mixer.music.unpause()`. -/
def devUnpause (s : AudioManager) : AudioManager :=
  { s with deviceBusy := true, events := s.events ++ [DevEvent.unpause] }

/-- Source: `t = threading.Timer(d, job); t.start()`: enqueue a new pending timer
and return its fresh handle. -/
def schedule (s : AudioManager) (d : ℚ) (j : Job) : AudioManager × ℕ :=
  ({ s with pending := s.pending ++ [⟨s.next_id, d, j⟩], next_id := s.next_id + 1 },
   s.next_id)

/-- Source: `if handle: handle.cancel()`: remove the pending timer held by an
optional handle.  Cancelling a handle that already fired, or a `None`
handle, removes nothing. -/
def cancelHandle (pending : List PendingTimer) (h : Option ℕ) : List PendingTimer :=
  pending.filter (fun pt => some pt.id ≠ h)

/-- Cancel every pending timer whose handle is in `ids`. -/
def cancelIds (pending : List PendingTimer) (ids : List ℕ) : List PendingTimer :=
  pending.filter (fun pt => pt.id ∉ ids)

/-- The handles held by the five timer fields of the manager; these are
exactly the timers `cancel_all_timers` cancels. -/
def heldIds (s : AudioManager) : List ℕ :=
  s.fade_timer.toList ++ s.end_timer.toList ++ s.position_update_timer.toList ++
    s.halt_fade_timer.toList ++ s.active_fade_timers

/-- The handles `halt_music` cancels: `fade_timer`, `end_timer` and the
`active_fade_timers` list (src/audio/manager.py lines 139-150). -/
def haltHeldIds (s : AudioManager) : List ℕ :=
  s.fade_timer.toList ++ s.end_timer.toList ++ s.active_fade_timers

/-- Constructor `AudioManager.__init__` (src/audio/manager.py lines 13-38). -/
def initManager : AudioManager where
  is_playing := false
  is_preview_playing := false
  current_song_volume := 1
  preview_start_time := 0
  preview_start_timestamp := 0
  preview_pause_position := 0
  preview_end_time := 0
  is_halting := false
  fade_timer := none
  end_timer := none
  position_update_timer := none
  halt_fade_timer := none
  active_fade_timers := []
  next_id := 0
  pending := []
  deviceVolume := 1
  deviceBusy := false
  events := []
  pos_cb := []
  song_finished_count := 0
  halt_completed_count := 0

/-- Method `cancel_all_timers` (src/audio/manager.py lines 172-193): cancel the
four single-slot timers and every timer in `active_fade_timers`, then
clear all five fields. -/
def AudioManager.cancel_all_timers (s : AudioManager) : AudioManager :=
  { s with
    pending := cancelIds s.pending (heldIds s),
    fade_timer := none, end_timer := none, position_update_timer := none,
    halt_fade_timer := none, active_fade_timers := [] }

/-- Method `stop_preview` (src/audio/manager.py lines 96-105). -/
def AudioManager.stop_preview (s : AudioManager) : AudioManager :=
  let s1 := s.cancel_all_timers
  let s2 := setVolume (devStop s1) 1
  { s2 with is_preview_playing := false, preview_pause_position := 0,
            pos_cb := s2.pos_cb ++ [0] }

/-- Method `_update_position` (src/audio/manager.py lines 199-218).  `now` is the
value `time.time()` returns during this call. -/
def AudioManager.update_position (s : AudioManager) (now : ℚ) : AudioManager :=
  if s.is_preview_playing && s.deviceBusy then
    let current_pos := s.preview_start_time + (now - s.preview_start_timestamp)
    if s.preview_end_time ≤ current_pos then s.stop_preview
    else
      let s1 := { s with pos_cb := s.pos_cb ++ [current_pos] }
      let si := schedule s1 (1 / 100) Job.poll
      { si.1 with position_update_timer := some si.2 }
  else if s.is_preview_playing then s.stop_preview
  else s

/-- Method `play_preview` (src/audio/manager.py lines 56-72); the trailing
`_start_position_tracking` call runs `_update_position` synchronously. -/
def AudioManager.play_preview (s : AudioManager) (start_time end_time : ℚ)
    (resume : Bool) (now : ℚ) : AudioManager :=
  let s0 := setVolume s 1
  let p := if resume && decide (0 < s0.preview_pause_position)
    then ({ s0 with preview_pause_position := 0 }, s0.preview_pause_position)
    else (s0, start_time)
  let s2 := devPlay p.1 p.2
  let s3 := { s2 with is_preview_playing := true, preview_start_time := p.2,
                      preview_start_timestamp := now, preview_end_time := end_time }
  s3.update_position now

/-- Method `pause_preview` (src/audio/manager.py lines 74-94).  The resume branch
requires `preview_pause_position > 0` and ends by restarting position
tracking, which runs one `_update_position` tick synchronously. -/
def AudioManager.pause_preview (s : AudioManager) (now : ℚ) : AudioManager :=
  if s.is_preview_playing then
    let elapsed_time := now - s.preview_start_timestamp
    let s1 := { s with preview_pause_position := s.preview_start_time + elapsed_time }
    let s2 := devPause s1
    { s2 with is_preview_playing := false,
              pending := cancelHandle s2.pending s2.position_update_timer,
              position_update_timer := none }
  else if 0 < s.preview_pause_position then
    let s1 := devUnpause s
    let s2 := { s1 with is_preview_playing := true,
                        preview_start_time := s.preview_pause_position,
                        preview_start_timestamp := now,
                        preview_pause_position := 0 }
    s2.update_position now
  else s

/-- Class `Song` (src/models/playlist.py lines 8-27). -/
structure Song where
  file_path : String
  start_time : ℚ
  end_time : ℚ
  page : ℤ
  comment : String
  volume : ℚ
deriving DecidableEq

/-- Constructor `Song.__init__` (src/models/playlist.py lines 10-17): the volume is
clamped into `[0, 1]` on construction. -/
def Song.init (file_path : String) (start_time end_time : ℚ) (page : ℤ)
    (comment : String) (volume : ℚ) : Song :=
  { file_path := file_path, start_time := start_time, end_time := end_time,
    page := page, comment := comment, volume := max 0 (min 1 volume) }

/-- Property `Song.duration` (src/models/playlist.py lines 19-22). -/
def Song.duration (song : Song) : ℚ := song.end_time - song.start_time

/-- Classmethod `Song.from_dict` (src/models/playlist.py lines 40-50): `page`,
`comment` and `volume` are optional with defaults `0`, `""` and `1.0`. -/
def Song.from_dict (file_path : String) (start_time end_time : ℚ)
    (pageOpt : Option ℤ) (commentOpt : Option String) (volumeOpt : Option ℚ) : Song :=
  Song.init file_path start_time end_time (pageOpt.getD 0) (commentOpt.getD "")
    (volumeOpt.getD 1)

/-- Method `play_song` (src/audio/manager.py lines 107-129).  Note that the old
`fade_timer` and `end_timer` handles are overwritten without being
cancelled, exactly as in the source. -/
def AudioManager.play_song (s : AudioManager) (song : Song) : AudioManager :=
  let s1 := setVolume s song.volume
  let s2 := devPlay s1 song.start_time
  let s3 := { s2 with is_playing := true, is_halting := false,
                      current_song_volume := song.volume }
  let fade_start_time := max 0 (song.duration - fade_duration)
  let f := schedule s3 fade_start_time Job.fadeStart
  let s5 := { f.1 with fade_timer := some f.2 }
  let e := schedule s5 song.duration Job.songEnd
  { e.1 with end_timer := some e.2 }

/-- One step of the natural fade:
`new_volume = max(0, current_volume - self.current_song_volume / 20)`
(src/audio/manager.py lines 236-240). -/
def natFadeStep (base v : ℚ) : ℚ := max 0 (v - base / 20)

/-- One step of the halt fade:
`new_volume = max(0, current_volume - current_volume / 40)`
(src/audio/manager.py lines 263-267). -/
def haltFadeStep (v : ℚ) : ℚ := max 0 (v - v / 40)

/-- Method `_fade_out_volume` (src/audio/manager.py lines 230-247). -/
def AudioManager.fade_out_volume (s : AudioManager) (current_volume : ℚ) : AudioManager :=
  if current_volume ≤ 0 ∨ s.is_halting = true then setVolume s 0
  else
    let new_volume := natFadeStep s.current_song_volume current_volume
    let s1 := setVolume s new_volume
    if 0 < new_volume ∧ s1.is_halting = false then
      let t := schedule s1 (fade_duration / 20) (Job.natStep new_volume)
      { t.1 with active_fade_timers := t.1.active_fade_timers ++ [t.2] }
    else s1

/-- Method `_start_fade_out` (src/audio/manager.py lines 220-223): only fade if
we are not halting. -/
def AudioManager.start_fade_out (s : AudioManager) : AudioManager :=
  if s.is_halting = false then s.fade_out_volume s.current_song_volume else s

/-- Method `_halt_complete` (src/audio/manager.py lines 280-290). -/
def AudioManager.halt_complete (s : AudioManager) : AudioManager :=
  let s1 := setVolume (devStop s) 1
  { s1 with is_playing := false, is_halting := false,
            halt_completed_count := s1.halt_completed_count + 1 }

/-- Method `_halt_fade_out_volume` (src/audio/manager.py lines 249-278). -/
def AudioManager.halt_fade_out_volume (s : AudioManager) (current_volume : ℚ) : AudioManager :=
  if current_volume ≤ 0 then
    let s1 := setVolume (devStop s) 1
    { s1 with is_playing := false, is_halting := false,
              halt_completed_count := s1.halt_completed_count + 1 }
  else
    let new_volume := haltFadeStep current_volume
    let s1 := setVolume s new_volume
    if 0 < new_volume then
      let t := schedule s1 (halt_fade_duration / 40) (Job.haltStep new_volume)
      { t.1 with active_fade_timers := t.1.active_fade_timers ++ [t.2] }
    else
      let t := schedule s1 (halt_fade_duration / 40) Job.haltComplete
      { t.1 with halt_fade_timer := some t.2 }

/-- Method `_start_halt_fade` (src/audio/manager.py lines 225-228): the halt fade
starts from the instantaneous device volume. -/
def AudioManager.start_halt_fade (s : AudioManager) : AudioManager :=
  s.halt_fade_out_volume s.deviceVolume

/-- Method `_song_finished` (src/audio/manager.py lines 292-300): only processed
when not halting. -/
def AudioManager.song_finished (s : AudioManager) : AudioManager :=
  if s.is_halting = false then
    let s1 := setVolume (devStop s) 1
    { s1 with is_playing := false,
              song_finished_count := s1.song_finished_count + 1 }
  else s

/-- Method `halt_music` (src/audio/manager.py lines 131-153). -/
def AudioManager.halt_music (s : AudioManager) : AudioManager :=
  if s.is_playing = false ∨ s.is_halting = true then s
  else
    let s1 := { s with is_halting := true }
    let s2 := { s1 with
      pending := cancelIds s1.pending (haltHeldIds s1),
      fade_timer := none, end_timer := none, active_fade_timers := [] }
    s2.start_halt_fade

/-- Method `stop_playback` (src/audio/manager.py lines 155-161). -/
def AudioManager.stop_playback (s : AudioManager) : AudioManager :=
  let s1 := s.cancel_all_timers
  let s2 := setVolume (devStop s1) 1
  { s2 with is_playing := false, is_halting := false }

/-- Method `get_current_position` (src/audio/manager.py lines 163-170): a pure
function of the state and the current time, with no side effects. -/
def AudioManager.get_current_position (s : AudioManager) (now : ℚ) : ℚ :=
  if s.is_preview_playing then
    s.preview_start_time + (now - s.preview_start_timestamp)
  else if 0 < s.preview_pause_position then s.preview_pause_position
  else 0

/-- The preview-session status in the spec's vocabulary, as represented by
the manager's fields: `Playing` iff `is_preview_playing`, `Paused` iff a
positive pause offset is stored, `Stopped` otherwise. -/
inductive PreviewStatus where
  | Playing
  | Paused
  | Stopped
deriving DecidableEq

/-- Derive the spec's preview status from the manager state. -/
def previewStatus (s : AudioManager) : PreviewStatus :=
  if s.is_preview_playing then PreviewStatus.Playing
  else if 0 < s.preview_pause_position then PreviewStatus.Paused
  else PreviewStatus.Stopped

/-- The volume the natural fade holds after `k` fired steps, starting from
`base` (the recursion argument of `_fade_out_volume`). -/
def natFadeIter (base : ℚ) : ℕ → ℚ
  | 0 => base
  | k + 1 => natFadeStep base (natFadeIter base k)

/-- The volume the halt fade holds after `k` fired steps, starting from
`v0` (the recursion argument of `_halt_fade_out_volume`). -/
def haltFadeIter (v0 : ℚ) : ℕ → ℚ
  | 0 => v0
  | k + 1 => haltFadeStep (haltFadeIter v0 k)

/-- Remove a fired timer from the pending queue. -/
def removeTimer (s : AudioManager) (i : ℕ) : AudioManager :=
  { s with pending := s.pending.filter (fun pt => pt.id ≠ i) }

/-- Execute the callback of a fired timer. -/
def runJob (s : AudioManager) (j : Job) (now : ℚ) : AudioManager :=
  match j with
  | Job.fadeStart => s.start_fade_out
  | Job.songEnd => s.song_finished
  | Job.poll => s.update_position now
  | Job.haltComplete => s.halt_complete
  | Job.natStep v => s.fade_out_volume v
  | Job.haltStep v => s.halt_fade_out_volume v

/-- A scheduled timer whose delay has elapsed fires: it leaves the pending
queue and its callback runs. -/
inductive Fires : AudioManager → AudioManager → Prop where
  | timer (s : AudioManager) (pt : PendingTimer) (now : ℚ) (hmem : pt ∈ s.pending) :
      Fires s (runJob (removeTimer s pt.id) pt.job now)

/-- Any finite sequence of timer firings. -/
abbrev FiresStar : AudioManager → AudioManager → Prop :=
  Relation.ReflTransGen Fires

/-! ### Helper lemmas -/

theorem cancelIds_eq_nil (l : List PendingTimer) (ids : List ℕ)
    (h : ∀ pt ∈ l, pt.id ∈ ids) : cancelIds l ids = [] := by
  induction l with
  | nil => rfl
  | cons a t ih =>
      have ha : a.id ∈ ids := h a (List.mem_cons_self a t)
      have ht : ∀ pt ∈ t, pt.id ∈ ids := fun pt hpt => h pt (List.mem_cons_of_mem a hpt)
      simp only [cancelIds, List.filter_cons] at *
      rw [if_neg (by simp [ha])]
      exact ih ht

theorem fires_star_fix (s : AudioManager) (h : s.pending = []) :
    ∀ u, FiresStar s u → u = s := by
  intro u hu
  induction hu with
  | refl => rfl
  | tail hab hbc ih =>
      cases hbc with
      | timer pt now hmem =>
          rw [ih, h] at hmem
          exact absurd hmem (List.not_mem_nil pt)

theorem haltFadeStep_of_pos {v : ℚ} (hv : 0 < v) :
    haltFadeStep v = v - v / 40 ∧ 0 < haltFadeStep v := by
  have h : 0 < v - v / 40 := by linarith
  have he : haltFadeStep v = v - v / 40 := max_eq_right h.le
  exact ⟨he, he ▸ h⟩

theorem halt_fade_out_volume_pos (s : AudioManager) (v : ℚ) (hv : 0 < v) :
    s.halt_fade_out_volume v =
      { s with deviceVolume := haltFadeStep v,
               events := s.events ++ [DevEvent.setVol (haltFadeStep v)],
               pending := s.pending ++
                 [⟨s.next_id, halt_fade_duration / 40, Job.haltStep (haltFadeStep v)⟩],
               next_id := s.next_id + 1,
               active_fade_timers := s.active_fade_timers ++ [s.next_id] } := by
  have h1 : ¬ (v ≤ 0) := not_le.mpr hv
  have h2 : 0 < haltFadeStep v := (haltFadeStep_of_pos hv).2
  simp [AudioManager.halt_fade_out_volume, h1, h2, setVolume, schedule]

theorem halt_fade_out_volume_nonpos (s : AudioManager) (v : ℚ) (hv : v ≤ 0) :
    s.halt_fade_out_volume v =
      { s with deviceBusy := false, deviceVolume := 1,
               events := s.events ++ [DevEvent.stop, DevEvent.setVol 1],
               is_playing := false, is_halting := false,
               halt_completed_count := s.halt_completed_count + 1 } := by
  simp [AudioManager.halt_fade_out_volume, hv, setVolume, devStop]

theorem halt_music_no_op (s : AudioManager)
    (h : s.is_playing = false ∨ s.is_halting = true) : s.halt_music = s := by
  unfold AudioManager.halt_music
  exact if_pos h

theorem halt_music_run (s : AudioManager) (hp : s.is_playing = true)
    (hh : s.is_halting = false) :
    s.halt_music =
      AudioManager.halt_fade_out_volume
        { s with is_halting := true,
                 pending := cancelIds s.pending (haltHeldIds s),
                 fade_timer := none, end_timer := none, active_fade_timers := [] }
        s.deviceVolume := by
  unfold AudioManager.halt_music
  rw [if_neg (by simp [hp, hh])]
  unfold AudioManager.start_halt_fade
  simp [haltHeldIds]

/-- Invariant of a halt fade started from a positive volume: the engine
stays Playing and Halting, neither completion callback count moves, and
the only outstanding timer is the next halt step, again with a positive
volume. -/
def HaltLoop (nSong nHalt : ℕ) (u : AudioManager) : Prop :=
  u.is_playing = true ∧ u.is_halting = true ∧ 0 < u.deviceVolume ∧
  u.song_finished_count = nSong ∧ u.halt_completed_count = nHalt ∧
  ∃ i d v, 0 < v ∧ u.pending = [⟨i, d, Job.haltStep v⟩]

theorem haltLoop_fires {nS nH : ℕ} {s u : AudioManager}
    (hl : HaltLoop nS nH s) (hf : Fires s u) : HaltLoop nS nH u := by
  obtain ⟨hp, hh, hdv, hsc, hhc, i, d, v, hv, hpend⟩ := hl
  cases hf with
  | timer pt now hmem =>
      rw [hpend] at hmem
      have hpt : pt = ⟨i, d, Job.haltStep v⟩ := by simpa using hmem
      subst hpt
      have hrem : (removeTimer s i).pending = [] := by
        simp [removeTimer, hpend, List.filter]
      have hrun : runJob (removeTimer s i) (Job.haltStep v) now =
          (removeTimer s i).halt_fade_out_volume v := rfl
      rw [hrun, halt_fade_out_volume_pos _ v hv]
      have hstep := (haltFadeStep_of_pos hv).2
      refine ⟨by simp [removeTimer, hp], by simp [removeTimer, hh], by simpa,
        by simp [removeTimer, hsc], by simp [removeTimer, hhc],
        (removeTimer s i).next_id, halt_fade_duration / 40, haltFadeStep v, hstep, ?_⟩
      simp [hrem]

theorem haltLoop_star {nS nH : ℕ} {s u : AudioManager}
    (hl : HaltLoop nS nH s) (hst : FiresStar s u) : HaltLoop nS nH u := by
  induction hst with
  | refl => exact hl
  | tail hab hbc ih => exact haltLoop_fires ih hbc

/-! ### Natural fade sequence lemmas -/

theorem natFadeIter_nonneg (b : ℚ) (hb : 0 ≤ b) (k : ℕ) : 0 ≤ natFadeIter b k := by
  cases k with
  | zero => exact hb
  | succ k => exact le_max_left 0 _

theorem natFadeIter_le_base (b : ℚ) (hb : 0 ≤ b) (k : ℕ) : natFadeIter b k ≤ b := by
  induction k with
  | zero => exact le_refl b
  | succ k ih =>
      have h20 : 0 ≤ b / 20 := by positivity
      exact max_le hb (by linarith)

theorem natFadeIter_antitone (b : ℚ) (hb : 0 ≤ b) (k : ℕ) :
    natFadeIter b (k + 1) ≤ natFadeIter b k := by
  have hnn := natFadeIter_nonneg b hb k
  have h20 : 0 ≤ b / 20 := by positivity
  exact max_le hnn (by linarith)

theorem natFadeIter_formula (b : ℚ) (hb : 0 ≤ b) :
    ∀ k : ℕ, k ≤ 20 → natFadeIter b k = b - k * (b / 20) := by
  intro k
  induction k with
  | zero => intro _; simp [natFadeIter]
  | succ k ih =>
      intro hk
      have hk' : k ≤ 20 := Nat.le_of_succ_le hk
      have hkq : ((k : ℚ) + 1) ≤ 20 := by exact_mod_cast hk
      have h20 : 0 ≤ b / 20 := by positivity
      have hnn : 0 ≤ b - ((k : ℚ) + 1) * (b / 20) := by nlinarith
      have hstep : natFadeIter b (k + 1) = natFadeStep b (natFadeIter b k) := rfl
      rw [hstep, ih hk', natFadeStep]
      push_cast
      rw [show b - (k : ℚ) * (b / 20) - b / 20 = b - ((k : ℚ) + 1) * (b / 20) by ring]
      exact max_eq_right hnn

/-! ### Halt fade sequence lemmas -/

theorem haltFadeIter_nonneg (v0 : ℚ) (hv : 0 ≤ v0) (k : ℕ) : 0 ≤ haltFadeIter v0 k := by
  cases k with
  | zero => exact hv
  | succ k => exact le_max_left 0 _

theorem haltFadeIter_antitone (v0 : ℚ) (hv : 0 ≤ v0) (k : ℕ) :
    haltFadeIter v0 (k + 1) ≤ haltFadeIter v0 k := by
  have hnn := haltFadeIter_nonneg v0 hv k
  exact max_le hnn (by linarith)

theorem haltFadeIter_le_start (v0 : ℚ) (hv : 0 ≤ v0) (k : ℕ) : haltFadeIter v0 k ≤ v0 := by
  induction k with
  | zero => exact le_refl v0
  | succ k ih => exact le_trans (haltFadeIter_antitone v0 hv k) ih

theorem haltFadeIter_pos (v0 : ℚ) (hv : 0 < v0) (k : ℕ) : 0 < haltFadeIter v0 k := by
  induction k with
  | zero => exact hv
  | succ k ih =>
      show 0 < haltFadeStep (haltFadeIter v0 k)
      exact (haltFadeStep_of_pos ih).2

theorem fade_out_volume_write (s : AudioManager) (v : ℚ) (hv : 0 < v)
    (hh : s.is_halting = false) :
    (s.fade_out_volume v).deviceVolume = natFadeStep s.current_song_volume v ∧
    (s.fade_out_volume v).events =
      s.events ++ [DevEvent.setVol (natFadeStep s.current_song_volume v)] ∧
    (s.fade_out_volume v).song_finished_count = s.song_finished_count ∧
    (s.fade_out_volume v).halt_completed_count = s.halt_completed_count ∧
    (0 < natFadeStep s.current_song_volume v →
      (s.fade_out_volume v).pending = s.pending ++
        [⟨s.next_id, fade_duration / 20, Job.natStep (natFadeStep s.current_song_volume v)⟩]) ∧
    (natFadeStep s.current_song_volume v ≤ 0 →
      (s.fade_out_volume v).pending = s.pending) := by
  have hv' : ¬ v ≤ 0 := not_le.mpr hv
  by_cases h2 : 0 < natFadeStep s.current_song_volume v
  · refine ⟨?_, ?_, ?_, ?_, fun _ => ?_, fun h3 => absurd h2 (not_lt.mpr h3)⟩ <;>
      simp [AudioManager.fade_out_volume, hv', h2, hh, setVolume, schedule]
  · refine ⟨?_, ?_, ?_, ?_, fun h3 => absurd h3 h2, fun _ => ?_⟩ <;>
      simp [AudioManager.fade_out_volume, hv', h2, hh, setVolume, schedule]

theorem halt_music_guard (s : AudioManager) :
    s.halt_music = s ∨ (s.halt_music).is_playing = false ∨
      (s.halt_music).is_halting = true := by
  by_cases hp : s.is_playing = true
  · by_cases hh : s.is_halting = false
    · right
      rw [halt_music_run s hp hh]
      rcases le_or_lt s.deviceVolume 0 with hv | hv
      · left
        rw [halt_fade_out_volume_nonpos _ _ hv]
      · right
        rw [halt_fade_out_volume_pos _ _ hv]
    · left
      exact halt_music_no_op s (Or.inr (by simpa using hh))
  · left
    exact halt_music_no_op s (Or.inl (by simpa using hp))

/-! ### Claim theorems -/

/-- C4: for every base volume `b` in `[0,1]`, the natural fade begun by the
`FadeStart` timer starts at `b` and descends to exactly `0` in 20 equal
steps of size `b/20`, with each scheduled step timer carrying delay
`fade_duration/20 = 0.5/20 s` so the fade spans `0.5 s`; a step entered at
volume `≤ 0` writes device volume exactly `0` and ends the sequence, and
no step ever touches the song-finished or halt-completed callbacks. -/
theorem C4_natural_fade_out (b : ℚ) (hb0 : 0 ≤ b) (hb1 : b ≤ 1) :
    (∀ k : ℕ, k ≤ 20 → natFadeIter b k = b - k * (b / 20)) ∧
    natFadeIter b 20 = 0 ∧
    (∀ k : ℕ, k < 20 → natFadeIter b k - natFadeIter b (k + 1) = b / 20) ∧
    (0 < b → ∀ k : ℕ, k < 20 → 0 < natFadeIter b k) ∧
    fade_duration / 20 = 1 / 40 ∧
    (20 : ℚ) * (fade_duration / 20) = fade_duration ∧
    (∀ s : AudioManager, ∀ v : ℚ, v ≤ 0 → s.fade_out_volume v = setVolume s 0) ∧
    (∀ s : AudioManager, s.is_halting = false → s.current_song_volume = b →
      ∀ v : ℚ, 0 < v →
        (s.fade_out_volume v).deviceVolume = natFadeStep b v ∧
        (s.fade_out_volume v).events = s.events ++ [DevEvent.setVol (natFadeStep b v)] ∧
        (s.fade_out_volume v).song_finished_count = s.song_finished_count ∧
        (s.fade_out_volume v).halt_completed_count = s.halt_completed_count ∧
        (0 < natFadeStep b v → (s.fade_out_volume v).pending = s.pending ++
          [⟨s.next_id, fade_duration / 20, Job.natStep (natFadeStep b v)⟩])) := by
  refine ⟨natFadeIter_formula b hb0, ?_, ?_, ?_, by norm_num [fade_duration],
    by norm_num [fade_duration], ?_, ?_⟩
  · rw [natFadeIter_formula b hb0 20 le_rfl]
    push_cast
    ring
  · intro k hk
    rw [natFadeIter_formula b hb0 k hk.le, natFadeIter_formula b hb0 (k + 1) hk]
    push_cast
    ring
  · intro hbpos k hk
    rw [natFadeIter_formula b hb0 k hk.le]
    have hkq : (k : ℚ) < 20 := by exact_mod_cast hk
    have h20 : 0 < b / 20 := by positivity
    nlinarith
  · intro s v hv
    simp [AudioManager.fade_out_volume, hv]
  · intro s hh hcur v hv
    have h := fade_out_volume_write s v hv hh
    rw [hcur] at h
    exact ⟨h.1, h.2.1, h.2.2.1, h.2.2.2.1, h.2.2.2.2.1⟩

/-- C5: `get_current_position` satisfies the clock contract: while the
preview session is Playing it returns `preview_start_time + (now -
preview_start_timestamp)`; while Paused (a positive stored offset) it
returns the stored offset; while Stopped it returns 0; and it is
non-decreasing in `now` while Playing.  It is a pure function of the
state and the clock (its Lean type has no state output). -/
theorem C5_current_position_contract (s : AudioManager) (now nowLater : ℚ) :
    (previewStatus s = PreviewStatus.Playing →
      s.get_current_position now =
        s.preview_start_time + (now - s.preview_start_timestamp)) ∧
    (previewStatus s = PreviewStatus.Paused →
      s.get_current_position now = s.preview_pause_position) ∧
    (previewStatus s = PreviewStatus.Stopped → s.get_current_position now = 0) ∧
    (previewStatus s = PreviewStatus.Playing → now ≤ nowLater →
      s.get_current_position now ≤ s.get_current_position nowLater) := by
  have hPlay : previewStatus s = PreviewStatus.Playing ↔ s.is_preview_playing = true := by
    unfold previewStatus
    split_ifs <;> simp_all
  have hPause : previewStatus s = PreviewStatus.Paused ↔
      s.is_preview_playing = false ∧ 0 < s.preview_pause_position := by
    unfold previewStatus
    split_ifs <;> simp_all
  have hStop : previewStatus s = PreviewStatus.Stopped ↔
      s.is_preview_playing = false ∧ ¬ 0 < s.preview_pause_position := by
    unfold previewStatus
    split_ifs <;> simp_all
  refine ⟨?_, ?_, ?_, ?_⟩
  · intro h
    rw [hPlay] at h
    simp [AudioManager.get_current_position, h]
  · intro h
    rw [hPause] at h
    simp [AudioManager.get_current_position, h.1, h.2]
  · intro h
    rw [hStop] at h
    simp [AudioManager.get_current_position, h.1, h.2]
  · intro h hle
    rw [hPlay] at h
    simp only [AudioManager.get_current_position, h, if_true]
    linarith

/-- C6: during any fade the volume sequence written to the device stays in
`[0, start]` and is monotonically non-increasing, for both the natural
fade (started from the base volume) and the halt fade (started from the
captured device volume); and each recursive step of `_fade_out_volume` /
`_halt_fade_out_volume` writes exactly the next element of that
sequence. -/
theorem C6_fade_volume_bounds (b v0 : ℚ) (hb : 0 ≤ b) (hv : 0 ≤ v0) (k : ℕ) :
    (0 ≤ natFadeIter b k ∧ natFadeIter b k ≤ b ∧
      natFadeIter b (k + 1) ≤ natFadeIter b k) ∧
    (0 ≤ haltFadeIter v0 k ∧ haltFadeIter v0 k ≤ v0 ∧
      haltFadeIter v0 (k + 1) ≤ haltFadeIter v0 k) ∧
    (∀ s : AudioManager, s.is_halting = false → s.current_song_volume = b →
      0 < natFadeIter b k →
      (s.fade_out_volume (natFadeIter b k)).deviceVolume = natFadeIter b (k + 1)) ∧
    (∀ s : AudioManager, 0 < haltFadeIter v0 k →
      (s.halt_fade_out_volume (haltFadeIter v0 k)).deviceVolume = haltFadeIter v0 (k + 1)) := by
  refine ⟨⟨natFadeIter_nonneg b hb k, natFadeIter_le_base b hb k,
      natFadeIter_antitone b hb k⟩,
    ⟨haltFadeIter_nonneg v0 hv k, haltFadeIter_le_start v0 hv k,
      haltFadeIter_antitone v0 hv k⟩, ?_, ?_⟩
  · intro s hh hcur hpos
    have h := (fade_out_volume_write s _ hpos hh).1
    rw [hcur] at h
    exact h
  · intro s hpos
    rw [halt_fade_out_volume_pos s _ hpos]
    rfl

/-- C8: `halt_music` is idempotent: a second call in succession leaves the
state (including the device-command trace and both callback counters)
exactly as the first call left it, because `halt_music` is a no-op unless
the transport is Playing and not already Halting. -/
theorem C8_halt_music_idempotent (s : AudioManager) :
    s.halt_music.halt_music = s.halt_music := by
  rcases halt_music_guard s with h | h | h
  · rw [h]
    exact h
  · exact halt_music_no_op _ (Or.inl h)
  · exact halt_music_no_op _ (Or.inr h)

/-- C10: every `Song`, whether built by the constructor or by `from_dict`,
stores a volume clamped into `[0,1]`, and `play_song` writes exactly that
clamped volume to the device. -/
theorem C10_song_volume_clamped (fp : String) (st et : ℚ) (pg : ℤ) (cm : String)
    (v : ℚ) (pgOpt : Option ℤ) (cmOpt : Option String) (vOpt : Option ℚ)
    (s : AudioManager) :
    (0 ≤ (Song.init fp st et pg cm v).volume ∧ (Song.init fp st et pg cm v).volume ≤ 1) ∧
    (0 ≤ (Song.from_dict fp st et pgOpt cmOpt vOpt).volume ∧
      (Song.from_dict fp st et pgOpt cmOpt vOpt).volume ≤ 1) ∧
    (s.play_song (Song.from_dict fp st et pgOpt cmOpt vOpt)).deviceVolume =
      (Song.from_dict fp st et pgOpt cmOpt vOpt).volume ∧
    DevEvent.setVol (Song.from_dict fp st et pgOpt cmOpt vOpt).volume ∈
      (s.play_song (Song.from_dict fp st et pgOpt cmOpt vOpt)).events := by
  refine ⟨⟨le_max_left 0 _, max_le zero_le_one (min_le_left 1 v)⟩,
    ⟨le_max_left 0 _, max_le zero_le_one (min_le_left 1 _)⟩, ?_, ?_⟩
  · simp [AudioManager.play_song, setVolume, devPlay, schedule]
  · simp [AudioManager.play_song, setVolume, devPlay, schedule]

/-! ### Concrete states used by witnesses and counterexamples -/

def exampleSong : Song := Song.init "a" 0 10 0 "" 1

def playExample : AudioManager := AudioManager.play_song initManager exampleSong

def haltedExample : AudioManager := playExample.halt_music

theorem haltedExample_haltLoop : HaltLoop 0 0 haltedExample := by
  refine ⟨?_, ?_, ?_, ?_, ?_, 2, 1 / 40, 39 / 40, by norm_num, ?_⟩ <;>
    norm_num [haltedExample, playExample, exampleSong, AudioManager.halt_music,
      AudioManager.play_song, AudioManager.start_halt_fade,
      AudioManager.halt_fade_out_volume, initManager, Song.init, Song.duration,
      setVolume, devPlay, devStop, schedule, cancelIds, haltHeldIds, haltFadeStep,
      fade_duration, halt_fade_duration, List.filter]

/-- C2 (amended): after `stop_playback` returns, the device volume is 1,
the transport is Stopped with the halting flag cleared, and — provided
every outstanding timer's handle was still held in one of the five slots
when the stop was issued — the pending-timer set is empty, so no
previously-scheduled callback can subsequently change the state. -/
theorem C2_stop_playback_cancellation (s : AudioManager)
    (hcov : ∀ pt ∈ s.pending, pt.id ∈ heldIds s) :
    (s.stop_playback).deviceVolume = 1 ∧
    (s.stop_playback).is_playing = false ∧
    (s.stop_playback).is_halting = false ∧
    (s.stop_playback).pending = [] ∧
    ∀ u, FiresStar s.stop_playback u → u = s.stop_playback := by
  have hnil := cancelIds_eq_nil s.pending (heldIds s) hcov
  have hpend : (s.stop_playback).pending = [] := by
    simp [AudioManager.stop_playback, AudioManager.cancel_all_timers, setVolume,
      devStop, hnil]
  exact ⟨rfl, rfl, rfl, hpend, fires_star_fix _ hpend⟩

theorem C2_stop_playback_cancellation_witness :
    (playExample.stop_playback).pending = [] ∧
    (playExample.stop_playback).deviceVolume = 1 := by
  have hcov : ∀ pt ∈ playExample.pending, pt.id ∈ heldIds playExample := by
    have hpend : playExample.pending =
        [⟨0, 19 / 2, Job.fadeStart⟩, ⟨1, 10, Job.songEnd⟩] := by
      norm_num [playExample, exampleSong, AudioManager.play_song, initManager,
        Song.init, Song.duration, setVolume, devPlay, schedule, fade_duration]
    have hheld : heldIds playExample = [0, 1] := by
      norm_num [playExample, exampleSong, AudioManager.play_song, initManager,
        Song.init, Song.duration, setVolume, devPlay, schedule, fade_duration, heldIds]
    intro pt hpt
    rw [hpend] at hpt
    rw [hheld]
    simp only [List.mem_cons, List.mem_singleton] at hpt
    rcases hpt with rfl | rfl | h
    · simp
    · simp
    · exact absurd h (List.not_mem_nil pt)
  have h := C2_stop_playback_cancellation playExample hcov
  exact ⟨h.2.2.2.1, h.1⟩

def doublePlay : AudioManager := playExample.play_song exampleSong

def stoppedLeaky : AudioManager := doublePlay.stop_playback

def leakedFire : AudioManager := runJob (removeTimer stoppedLeaky 0) Job.fadeStart 0

/-- C2 (counterexample): the claim as stated is false.  After `play_song`
is called while the previous song's timers are still pending, the old
`fade_timer` handle is overwritten without being cancelled; `stop_playback`
then cannot cancel the orphaned timer, and when it later fires it mutates
the engine state (it writes volume 19/20 to a device that `stop_playback`
had reset to 1). -/
theorem C2_cex_orphaned_timer :
    Fires stoppedLeaky leakedFire ∧
    stoppedLeaky.deviceVolume = 1 ∧
    stoppedLeaky.is_playing = false ∧
    leakedFire.deviceVolume = 19 / 20 ∧
    leakedFire ≠ stoppedLeaky := by
  have hpend : stoppedLeaky.pending =
      [⟨0, 19 / 2, Job.fadeStart⟩, ⟨1, 10, Job.songEnd⟩] := by
    norm_num [stoppedLeaky, doublePlay, playExample, exampleSong,
      AudioManager.play_song, AudioManager.stop_playback,
      AudioManager.cancel_all_timers, initManager, Song.init, Song.duration,
      setVolume, devPlay, devStop, schedule, cancelIds, heldIds, fade_duration,
      List.filter]
  have hmem : (⟨0, 19 / 2, Job.fadeStart⟩ : PendingTimer) ∈ stoppedLeaky.pending := by
    rw [hpend]
    exact List.mem_cons_self _ _
  have hfire : Fires stoppedLeaky leakedFire :=
    Fires.timer stoppedLeaky ⟨0, 19 / 2, Job.fadeStart⟩ 0 hmem
  have hvol1 : stoppedLeaky.deviceVolume = 1 := by
    norm_num [stoppedLeaky, doublePlay, playExample, exampleSong,
      AudioManager.play_song, AudioManager.stop_playback,
      AudioManager.cancel_all_timers, initManager, Song.init, Song.duration,
      setVolume, devPlay, devStop, schedule, cancelIds, heldIds, fade_duration]
  have hvol2 : leakedFire.deviceVolume = 19 / 20 := by
    norm_num [leakedFire, stoppedLeaky, doublePlay, playExample, exampleSong,
      AudioManager.play_song, AudioManager.stop_playback,
      AudioManager.cancel_all_timers, AudioManager.start_fade_out,
      AudioManager.fade_out_volume, runJob, removeTimer, natFadeStep, initManager,
      Song.init, Song.duration, setVolume, devPlay, devStop, schedule, cancelIds,
      heldIds, fade_duration, List.filter]
  refine ⟨hfire, hvol1, by norm_num [stoppedLeaky, doublePlay, playExample,
    exampleSong, AudioManager.play_song, AudioManager.stop_playback,
    AudioManager.cancel_all_timers, initManager, Song.init, Song.duration,
    setVolume, devPlay, devStop, schedule, cancelIds, heldIds, fade_duration],
    hvol2, ?_⟩
  intro hEq
  rw [hEq, hvol1] at hvol2
  norm_num at hvol2

/-- C3 (amended): once `halt_music` puts a playing session (with positive
device volume and all its outstanding timers held in the slots it cancels)
into Halting, a `FadeStart` callback firing is inert (`start_fade_out` is
the identity on the halting state), and along every subsequent sequence of
timer firings the song-finished count never moves, no natural-fade step is
ever pending, and the halt-completed count never moves either — so the
halt-completed callback fires at most once (here: not at all, because the
per-step recomputed halt fade never reaches 0 from a positive volume). -/
theorem C3_halting_suppression (s : AudioManager)
    (hp : s.is_playing = true) (hh : s.is_halting = false)
    (hv : 0 < s.deviceVolume)
    (hcov : ∀ pt ∈ s.pending, pt.id ∈ haltHeldIds s) :
    (s.halt_music).is_halting = true ∧
    (s.halt_music).start_fade_out = s.halt_music ∧
    ∀ u, FiresStar s.halt_music u →
      u.song_finished_count = s.song_finished_count ∧
      u.halt_completed_count = s.halt_completed_count ∧
      u.is_halting = true ∧
      ∀ pt ∈ u.pending, ∀ w : ℚ, pt.job ≠ Job.natStep w := by
  have hnil := cancelIds_eq_nil s.pending (haltHeldIds s) hcov
  have hloop : HaltLoop s.song_finished_count s.halt_completed_count s.halt_music := by
    rw [halt_music_run s hp hh, halt_fade_out_volume_pos _ _ hv]
    exact ⟨by simpa using hp, rfl, by simpa using (haltFadeStep_of_pos hv).2,
      rfl, rfl, s.next_id, halt_fade_duration / 40, haltFadeStep s.deviceVolume,
      (haltFadeStep_of_pos hv).2, by simp [hnil]⟩
  have hhalt : (s.halt_music).is_halting = true := hloop.2.1
  refine ⟨hhalt, ?_, ?_⟩
  · unfold AudioManager.start_fade_out
    rw [if_neg (by simp [hhalt])]
  · intro u hu
    have h := haltLoop_star hloop hu
    obtain ⟨i, d, w, hw, hpend⟩ := h.2.2.2.2.2
    refine ⟨h.2.2.2.1, h.2.2.2.2.1, h.2.1, ?_⟩
    intro pt hpt w'
    rw [hpend] at hpt
    have : pt = ⟨i, d, Job.haltStep w⟩ := by simpa using hpt
    subst this
    simp

theorem C3_halting_suppression_witness :
    (playExample.halt_music).is_halting = true ∧
    (playExample.halt_music).start_fade_out = playExample.halt_music := by
  have hcov : ∀ pt ∈ playExample.pending, pt.id ∈ haltHeldIds playExample := by
    have hpend : playExample.pending =
        [⟨0, 19 / 2, Job.fadeStart⟩, ⟨1, 10, Job.songEnd⟩] := by
      norm_num [playExample, exampleSong, AudioManager.play_song, initManager,
        Song.init, Song.duration, setVolume, devPlay, schedule, fade_duration]
    have hheld : haltHeldIds playExample = [0, 1] := by
      norm_num [playExample, exampleSong, AudioManager.play_song, initManager,
        Song.init, Song.duration, setVolume, devPlay, schedule, fade_duration,
        haltHeldIds]
    intro pt hpt
    rw [hpend] at hpt
    rw [hheld]
    simp only [List.mem_cons, List.mem_singleton] at hpt
    rcases hpt with rfl | rfl | h
    · simp
    · simp
    · exact absurd h (List.not_mem_nil pt)
  have h := C3_halting_suppression playExample
    (by norm_num [playExample, exampleSong, AudioManager.play_song, initManager,
      Song.init, Song.duration, setVolume, devPlay, schedule])
    (by norm_num [playExample, exampleSong, AudioManager.play_song, initManager,
      Song.init, Song.duration, setVolume, devPlay, schedule])
    (by norm_num [playExample, exampleSong, AudioManager.play_song, initManager,
      Song.init, Song.duration, setVolume, devPlay, schedule])
    hcov
  exact ⟨h.1, h.2.1⟩

/-- Along every sequence of timer firings from this state, the
halt-completed callback count stays 0. -/
def neverHaltCompleted (s : AudioManager) : Prop :=
  ∀ u, FiresStar s u → u.halt_completed_count = 0

/-- C3 (counterexample): for the session `playExample` (playing at device
volume 1) terminated by `halt_music`, the halt-completed callback count
stays 0 along every possible sequence of timer firings, so it does not
fire "exactly once" as the claim states. -/
theorem C3_cex_halt_callback_never_fires :
    haltedExample.is_halting = true ∧ neverHaltCompleted haltedExample := by
  refine ⟨haltedExample_haltLoop.2.1, ?_⟩
  intro u hu
  exact (haltLoop_star haltedExample_haltLoop hu).2.2.2.2.1

/-- C1 (code bug): the halt fade started by `halt_music` from device
volume 1 never completes: along every sequence of timer firings the
halt-completed callback count stays 0, the transport is never stopped
(`is_playing` stays true), the halting flag is never cleared, and the
device volume stays positive — because each step writes
`v - v/40 = v * 39/40 > 0` and re-schedules itself, so the `<= 0`
completion branch (stop, reset volume to 1, invoke the callback) is never
reached, contradicting the claimed 40-step, 1-second descent to 0. -/
theorem C1_halt_fade_never_completes (u : AudioManager)
    (hu : FiresStar haltedExample u) :
    u.halt_completed_count = 0 ∧ u.is_playing = true ∧ u.is_halting = true ∧
    0 < u.deviceVolume := by
  have h := haltLoop_star haltedExample_haltLoop hu
  exact ⟨h.2.2.2.2.1, h.1, h.2.1, h.2.2.1⟩

theorem C1_halt_fade_never_completes_witness :
    haltedExample.halt_completed_count = 0 ∧ haltedExample.is_playing = true ∧
    haltedExample.is_halting = true ∧ 0 < haltedExample.deviceVolume :=
  C1_halt_fade_never_completes haltedExample Relation.ReflTransGen.refl

/-- C9: if `halt_music` is called while Playing with the device volume
already 0, no fade step or completion timer is scheduled at all
(`next_id` is unchanged and `pending` only shrinks by the cancelled
slots); the transport is stopped and the device volume reset to 1, the
flags are cleared, and the halt-completed callback is invoked once,
synchronously, inside the `halt_music` call itself. -/
theorem C9_halt_at_zero_volume (s : AudioManager) (hp : s.is_playing = true)
    (hh : s.is_halting = false) (hv : s.deviceVolume = 0) :
    (s.halt_music).halt_completed_count = s.halt_completed_count + 1 ∧
    (s.halt_music).is_playing = false ∧
    (s.halt_music).is_halting = false ∧
    (s.halt_music).deviceVolume = 1 ∧
    (s.halt_music).events = s.events ++ [DevEvent.stop, DevEvent.setVol 1] ∧
    (s.halt_music).next_id = s.next_id ∧
    (s.halt_music).pending = cancelIds s.pending (haltHeldIds s) := by
  rw [halt_music_run s hp hh, halt_fade_out_volume_nonpos _ _ (le_of_eq hv)]
  exact ⟨rfl, rfl, rfl, rfl, rfl, rfl, rfl⟩

def songZero : Song := Song.init "z" 0 10 0 "" 0

def zeroPlay : AudioManager := AudioManager.play_song initManager songZero

theorem C9_halt_at_zero_volume_witness :
    (zeroPlay.halt_music).halt_completed_count = zeroPlay.halt_completed_count + 1 ∧
    (zeroPlay.halt_music).is_playing = false ∧
    (zeroPlay.halt_music).deviceVolume = 1 := by
  have h := C9_halt_at_zero_volume zeroPlay
    (by norm_num [zeroPlay, songZero, AudioManager.play_song, initManager,
      Song.init, Song.duration, setVolume, devPlay, schedule])
    (by norm_num [zeroPlay, songZero, AudioManager.play_song, initManager,
      Song.init, Song.duration, setVolume, devPlay, schedule])
    (by norm_num [zeroPlay, songZero, AudioManager.play_song, initManager,
      Song.init, Song.duration, setVolume, devPlay, schedule])
  exact ⟨h.1, h.2.1, h.2.2.2.1⟩

/-- C7 (amended): `pause_preview` toggles.  Called while Playing it
captures the elapsed position as the paused offset, pauses the device and
cancels position polling.  Called while a positive offset is stored (and
the offset lies before the preview end) it unpauses the device, resumes
from that offset, restarts polling, and clears the offset so the position
keeps climbing from where it froze.  When no positive offset is stored
(which includes both a genuinely Stopped session and a pause captured at
offset exactly 0) the call is a no-op. -/
theorem C7_pause_preview_toggle (s : AudioManager) (now : ℚ) :
    (s.is_preview_playing = true →
      (s.pause_preview now).is_preview_playing = false ∧
      (s.pause_preview now).preview_pause_position =
        s.preview_start_time + (now - s.preview_start_timestamp) ∧
      (s.pause_preview now).events = s.events ++ [DevEvent.pause] ∧
      (s.pause_preview now).position_update_timer = none ∧
      ∀ pt ∈ (s.pause_preview now).pending,
        pt ∈ s.pending ∧ some pt.id ≠ s.position_update_timer) ∧
    (s.is_preview_playing = false → 0 < s.preview_pause_position →
      s.preview_pause_position < s.preview_end_time →
      (s.pause_preview now).is_preview_playing = true ∧
      (s.pause_preview now).preview_pause_position = 0 ∧
      (s.pause_preview now).preview_start_time = s.preview_pause_position ∧
      (s.pause_preview now).get_current_position now = s.preview_pause_position ∧
      ((s.pause_preview now).position_update_timer).isSome = true ∧
      DevEvent.unpause ∈ (s.pause_preview now).events) ∧
    (s.is_preview_playing = false → s.preview_pause_position ≤ 0 →
      s.pause_preview now = s) := by
  refine ⟨?_, ?_, ?_⟩
  · intro h
    have hres : s.pause_preview now =
        { s with preview_pause_position :=
                   s.preview_start_time + (now - s.preview_start_timestamp),
                 deviceBusy := false,
                 events := s.events ++ [DevEvent.pause],
                 is_preview_playing := false,
                 pending := cancelHandle s.pending s.position_update_timer,
                 position_update_timer := none } := by
      simp [AudioManager.pause_preview, h, devPause]
    rw [hres]
    refine ⟨rfl, rfl, rfl, rfl, ?_⟩
    intro pt hpt
    simp only [cancelHandle, List.mem_filter, decide_eq_true_eq] at hpt
    exact ⟨hpt.1, hpt.2⟩
  · intro h1 h2 h3
    have hne : ¬ s.preview_end_time ≤ s.preview_pause_position := not_le.mpr h3
    refine ⟨?_, ?_, ?_, ?_, ?_, ?_⟩ <;>
      simp [AudioManager.pause_preview, h1, h2, AudioManager.update_position,
        devUnpause, schedule, AudioManager.get_current_position, hne]
  · intro h1 h4
    have h2 : ¬ 0 < s.preview_pause_position := not_lt.mpr h4
    simp [AudioManager.pause_preview, h1, h2]

def pausedAtThree : AudioManager :=
  (initManager.play_preview 2 8 false 100).pause_preview 101

theorem C7_pause_preview_toggle_witness :
    (pausedAtThree.pause_preview 102).is_preview_playing = true ∧
    (pausedAtThree.pause_preview 102).preview_pause_position = 0 ∧
    (pausedAtThree.pause_preview 102).preview_start_time =
      pausedAtThree.preview_pause_position ∧
    (pausedAtThree.pause_preview 102).get_current_position 102 =
      pausedAtThree.preview_pause_position := by
  have h := (C7_pause_preview_toggle pausedAtThree 102).2.1
    (by norm_num [pausedAtThree, AudioManager.play_preview, AudioManager.pause_preview,
      AudioManager.update_position, initManager, setVolume, devPlay, devPause,
      schedule, cancelHandle, List.filter])
    (by norm_num [pausedAtThree, AudioManager.play_preview, AudioManager.pause_preview,
      AudioManager.update_position, initManager, setVolume, devPlay, devPause,
      schedule, cancelHandle, List.filter])
    (by norm_num [pausedAtThree, AudioManager.play_preview, AudioManager.pause_preview,
      AudioManager.update_position, initManager, setVolume, devPlay, devPause,
      schedule, cancelHandle, List.filter])
  exact ⟨h.1, h.2.1, h.2.2.1, h.2.2.2.1⟩

def pausedAtZero : AudioManager :=
  (initManager.play_preview 0 8 false 100).pause_preview 100

/-- C7 (counterexample): a preview started at position 0 and paused with
zero elapsed time is a genuinely paused session (a `pause` command was
issued to the device) whose captured offset is exactly 0; the next
`pause_preview` call does not resume it — it is a no-op — because the
code tests `preview_pause_position > 0`, so a pause at offset exactly 0 is
indistinguishable from Stopped.  This refutes the claim's "at any captured
offset, including an offset of exactly 0". -/
theorem C7_cex_pause_at_offset_zero :
    pausedAtZero.is_preview_playing = false ∧
    pausedAtZero.preview_pause_position = 0 ∧
    DevEvent.pause ∈ pausedAtZero.events ∧
    pausedAtZero.pause_preview 101 = pausedAtZero := by
  have h1 : pausedAtZero.is_preview_playing = false := by
    norm_num [pausedAtZero, AudioManager.play_preview, AudioManager.pause_preview,
      AudioManager.update_position, initManager, setVolume, devPlay, devPause,
      schedule, cancelHandle, List.filter]
  have h2 : pausedAtZero.preview_pause_position = 0 := by
    norm_num [pausedAtZero, AudioManager.play_preview, AudioManager.pause_preview,
      AudioManager.update_position, initManager, setVolume, devPlay, devPause,
      schedule, cancelHandle, List.filter]
  refine ⟨h1, h2, ?_, ?_⟩
  · norm_num [pausedAtZero, AudioManager.play_preview, AudioManager.pause_preview,
      AudioManager.update_position, initManager, setVolume, devPlay, devPause,
      schedule, cancelHandle, List.filter]
  · simp [AudioManager.pause_preview, h1, h2]

/-! ### Remaining witnesses -/

theorem C4_natural_fade_out_witness :
    natFadeIter (4 / 5) 20 = 0 ∧ fade_duration / 20 = 1 / 40 := by
  have h := C4_natural_fade_out (4 / 5) (by norm_num) (by norm_num)
  exact ⟨h.2.1, h.2.2.2.2.1⟩

def previewExample : AudioManager := initManager.play_preview 2 8 false 100

theorem C5_current_position_contract_witness :
    previewExample.get_current_position 101 =
      previewExample.preview_start_time +
        (101 - previewExample.preview_start_timestamp) := by
  have h := C5_current_position_contract previewExample 101 102
  exact h.1 (by norm_num [previewStatus, previewExample, AudioManager.play_preview,
    AudioManager.update_position, initManager, setVolume, devPlay, schedule])

theorem C6_fade_volume_bounds_witness :
    (0 ≤ natFadeIter (4 / 5) 7 ∧ natFadeIter (4 / 5) 7 ≤ 4 / 5 ∧
      natFadeIter (4 / 5) (7 + 1) ≤ natFadeIter (4 / 5) 7) ∧
    (0 ≤ haltFadeIter 1 7 ∧ haltFadeIter 1 7 ≤ 1 ∧
      haltFadeIter 1 (7 + 1) ≤ haltFadeIter 1 7) := by
  have h := C6_fade_volume_bounds (4 / 5) 1 (by norm_num) (by norm_num) 7
  exact ⟨h.1, h.2.1⟩
